import Mathlib

/-!
Shallow embedding of the order service of `services/order` (cart_service.py,
order_service.py, utils.py, config.py, routers/orders.py).

Modelling conventions:
- MongoDB collections become lists of records in a `DB` structure; `find_one`
  becomes `List.find?`, `count_documents` becomes counting a filter,
  `insert_one` appends, `update_one` with `$set` maps a record update over the
  list, `delete_many` filters.
- Monetary floats become rationals; Python's `round(x, 2)` becomes `round2`.
- `datetime` timestamp fields that no verified property reads are elided; an
  order token's `generated_at` is kept as its calendar day (a natural number)
  because daily token counting reads it.
- A raised `ValueError` becomes `Except.error (e, db)` carrying the database
  state at the moment of the raise (Python does not roll back earlier writes,
  so the carried state makes "left unchanged" provable where the code raises
  before writing).
- `random.choice` over the token alphabet becomes an explicit `Fin` argument;
  fresh `uuid4` identifiers become explicit string arguments.
- Redis becomes an association list from key to cached order document;
  best-effort cache failure paths are not modelled (the claims are about the
  successful cache interactions).
- Cart item customizations and per-line item feedback rows are elided: they
  never enter the cart totals (`price_modifier` is not summed anywhere) and no
  claim reads them.
-/

namespace OrderSpec

/-- Enum `OrderStatus` from schemas.py. -/
inductive OrderStatus where
  | CART | PENDING | CONFIRMED | PREPARING | READY | COMPLETED | CANCELLED | REFUNDED
  deriving DecidableEq, Repr

/-- Enum `PaymentStatus` from schemas.py. -/
inductive PaymentStatus where
  | PENDING | PROCESSING | COMPLETED | FAILED | REFUNDED | CANCELLED
  deriving DecidableEq, Repr

/-- Error taxonomy of the spec; each constructor stands for the `ValueError`
the code raises on the corresponding path. -/
inductive Err where
  | NotFound | EmptyCart | LimitExceeded | InvalidTransition | InvalidState | Forbidden
  deriving DecidableEq, Repr

/-- A `shopping_carts` document. -/
structure Cart where
  id : String
  user_id : String
  subtotal : ℚ
  tax : ℚ
  tax_percentage : ℚ
  total : ℚ
  item_count : Nat
  deriving DecidableEq, Repr

/-- A `cart_items` document. -/
structure CartLine where
  id : String
  cart_id : String
  menu_item_id : String
  menu_item_name : String
  quantity : Nat
  unit_price : ℚ
  total_price : ℚ
  deriving DecidableEq, Repr

/-- An `orders` document (timestamp fields elided). -/
structure Order where
  id : String
  order_number : String
  user_id : String
  status : OrderStatus
  subtotal : ℚ
  tax : ℚ
  total : ℚ
  rating : Option Nat
  feedback : Option String
  cancellation_reason : Option String
  cancelled_by : Option String
  deriving DecidableEq, Repr

/-- An `order_items` document: the frozen snapshot of a cart line. -/
structure OrderLine where
  id : String
  order_id : String
  menu_item_id : String
  menu_item_name : String
  quantity : Nat
  unit_price : ℚ
  total_price : ℚ
  deriving DecidableEq, Repr

/-- An `order_tokens` document; `generated_day` models the calendar day of
`generated_at`, `token_letter` models the source's single-letter token
prefix field. -/
structure OrderToken where
  id : String
  order_id : String
  token : String
  token_number : Nat
  token_letter : String
  generated_day : Nat
  deriving DecidableEq, Repr

/-- A `payments` document. -/
structure Payment where
  id : String
  order_id : String
  method : String
  status : PaymentStatus
  amount : ℚ
  deriving DecidableEq, Repr

/-- An `order_timeline` document. -/
structure TimelineEntry where
  id : String
  order_id : String
  status : OrderStatus
  message : String
  updated_by : Option String
  deriving DecidableEq, Repr

/-- The MongoDB database of the order service: one list per collection. -/
structure DB where
  shopping_carts : List Cart
  cart_items : List CartLine
  orders : List Order
  order_items : List OrderLine
  order_tokens : List OrderToken
  payments : List Payment
  order_timeline : List TimelineEntry
  deriving DecidableEq, Repr

def emptyDB : DB := ⟨[], [], [], [], [], [], []⟩

/-! ## config.py -/

/-- Constant `settings.DEFAULT_TAX_PERCENTAGE = 5.0`. -/
def DEFAULT_TAX_PERCENTAGE : ℚ := 5

/-- Constant `settings.MAX_QUANTITY_PER_ITEM = 50`. -/
def MAX_QUANTITY_PER_ITEM : Nat := 50

/-- Constant `settings.TOKEN_PREFIX_OPTIONS = ["A","B","C","D","E"]`. -/
def tokenLetters : List String := ["A", "B", "C", "D", "E"]

/-! ## utils.py -/

/-- Python's `round(x, 2)`: round to two decimal places. (The exact tie-break
of Python's rounding is immaterial: every statement uses this same
function on both sides.) -/
def round2 (x : ℚ) : ℚ := (round (x * 100) : ℚ) / 100

/-- Function `calculate_tax(subtotal)` with the default tax percentage, as called by
`recalculate_cart`. -/
def calculate_tax (subtotal : ℚ) : ℚ :=
  round2 (subtotal * DEFAULT_TAX_PERCENTAGE / 100)

/-- Function `calculate_total(subtotal, tax)`. -/
def calculate_total (subtotal tax : ℚ) : ℚ := round2 (subtotal + tax)

/-- Python's `f"{n:03d}"`: decimal digits of `n`, left-padded with zeros to a
minimum width of 3. -/
def zeroPad3 (n : Nat) : String :=
  let s := toString n
  if s.length < 3 then String.mk (List.replicate (3 - s.length) '0') ++ s else s

/-- Function `generate_order_token(token_number)`: the `random.choice` over
`TOKEN_PREFIX_OPTIONS` is modelled by the explicit index `c`; returns
`(full_token, letter)` as the source returns `(token, prefix)`. -/
def generate_order_token (token_number : Nat) (c : Fin tokenLetters.length) :
    String × String :=
  let letter := tokenLetters.get c
  (letter ++ zeroPad3 token_number, letter)

/-! ## OrderService._get_next_token_number -/

/-- The `count_documents({"generated_at": {"$gte": start_of_day}})` query:
tokens generated today. -/
def countTokensToday (db : DB) (today : Nat) : Nat :=
  (db.order_tokens.filter (fun t => t.generated_day == today)).length

/-- Method `OrderService._get_next_token_number`: count of tokens issued today, plus
one. -/
def get_next_token_number (db : DB) (today : Nat) : Nat :=
  countTokensToday db today + 1

/-! ## CartService -/

/-- The result of a catalog lookup (`fetch_menu_item_details`): the external
menu service is modelled as a function from item id to an optional item. -/
structure MenuItem where
  name : String
  price : ℚ
  deriving DecidableEq, Repr

/-- Schema `AddToCartRequest` (schema bounds `1 ≤ quantity ≤ 50` are enforced by the
routing layer; customizations elided). -/
structure AddToCartRequest where
  menu_item_id : String
  quantity : Nat
  deriving DecidableEq, Repr

/-- Schema `UpdateCartItemRequest` (customizations and special instructions elided:
they do not enter totals). -/
structure UpdateCartItemRequest where
  quantity : Option Nat
  deriving DecidableEq, Repr

/-- The lines of one cart: `db.cart_items.find({"cart_id": cart_id})`. -/
def cartLines (db : DB) (cart_id : String) : List CartLine :=
  db.cart_items.filter (fun i => i.cart_id == cart_id)

/-- Method `CartService.get_or_create_cart`: find the user's cart, or insert a fresh
zeroed cart (its `uuid4` id passed in as `fresh_cart_id`). -/
def get_or_create_cart (db : DB) (user_id fresh_cart_id : String) : Cart × DB :=
  match db.shopping_carts.find? (fun c => c.user_id == user_id) with
  | some c => (c, db)
  | none =>
    let c : Cart :=
      { id := fresh_cart_id, user_id := user_id, subtotal := 0, tax := 0,
        tax_percentage := DEFAULT_TAX_PERCENTAGE, total := 0, item_count := 0 }
    (c, { db with shopping_carts := db.shopping_carts ++ [c] })

/-- Method `CartService.recalculate_cart`: recompute subtotal, tax, total and
item_count of the cart from its lines and store them. -/
def recalculate_cart (db : DB) (cart_id : String) : DB :=
  let lines := cartLines db cart_id
  let subtotal := (lines.map (·.total_price)).sum
  let item_count := (lines.map (·.quantity)).sum
  let tax := calculate_tax subtotal
  let total := calculate_total subtotal tax
  { db with shopping_carts := db.shopping_carts.map (fun c =>
      if c.id == cart_id then
        { c with subtotal := subtotal, tax := tax, total := total,
                 item_count := item_count }
      else c) }

/-- Method `CartService.add_to_cart`. An existing line for the same menu item is
merged (quantity summed, `total_price` recomputed from the current catalog
price); over the 50 cap the call raises before any write. Customization
rewriting is elided (it touches no field any claim reads). -/
def add_to_cart (catalog : String → Option MenuItem) (db : DB)
    (user_id : String) (req : AddToCartRequest)
    (fresh_cart_id fresh_item_id : String) : Except (Err × DB) DB :=
  let p := get_or_create_cart db user_id fresh_cart_id
  let cart := p.1
  let db1 := p.2
  match catalog req.menu_item_id with
  | none => .error (.NotFound, db1)
  | some menu_item =>
    match db1.cart_items.find?
        (fun i => i.cart_id == cart.id && i.menu_item_id == req.menu_item_id) with
    | some existing =>
      let new_quantity := existing.quantity + req.quantity
      if MAX_QUANTITY_PER_ITEM < new_quantity then
        .error (.LimitExceeded, db1)
      else
        let total_price := menu_item.price * (new_quantity : ℚ)
        let db2 : DB := { db1 with cart_items := db1.cart_items.map (fun i =>
          if i.id == existing.id then
            { i with quantity := new_quantity, total_price := total_price }
          else i) }
        .ok (recalculate_cart db2 cart.id)
    | none =>
      let line : CartLine :=
        { id := fresh_item_id, cart_id := cart.id,
          menu_item_id := req.menu_item_id, menu_item_name := menu_item.name,
          quantity := req.quantity, unit_price := menu_item.price,
          total_price := menu_item.price * (req.quantity : ℚ) }
      .ok (recalculate_cart { db1 with cart_items := db1.cart_items ++ [line] }
            cart.id)

/-- Method `CartService.update_cart_item`. -/
def update_cart_item (db : DB) (user_id cart_item_id : String)
    (req : UpdateCartItemRequest) (fresh_cart_id : String) :
    Except (Err × DB) DB :=
  let p := get_or_create_cart db user_id fresh_cart_id
  let cart := p.1
  let db1 := p.2
  match db1.cart_items.find?
      (fun i => i.id == cart_item_id && i.cart_id == cart.id) with
  | none => .error (.NotFound, db1)
  | some item =>
    match req.quantity with
    | some q =>
      if MAX_QUANTITY_PER_ITEM < q then .error (.LimitExceeded, db1)
      else
        let db2 : DB := { db1 with cart_items := db1.cart_items.map (fun i =>
          if i.id == cart_item_id then
            { i with quantity := q, total_price := item.unit_price * (q : ℚ) }
          else i) }
        .ok (recalculate_cart db2 cart.id)
    | none => .ok (recalculate_cart db1 cart.id)

/-- Method `CartService.remove_cart_item`: `delete_one` on (id, cart_id); a deleted
count of zero raises `NotFound`. -/
def remove_cart_item (db : DB) (user_id cart_item_id fresh_cart_id : String) :
    Except (Err × DB) DB :=
  let p := get_or_create_cart db user_id fresh_cart_id
  let cart := p.1
  let db1 := p.2
  let remaining := db1.cart_items.filter
    (fun i => !(i.id == cart_item_id && i.cart_id == cart.id))
  if remaining.length == db1.cart_items.length then .error (.NotFound, db1)
  else .ok (recalculate_cart { db1 with cart_items := remaining } cart.id)

/-- One mutating cart operation, for stating the per-operation invariant. -/
inductive CartOp where
  | add (req : AddToCartRequest) (fresh_item_id : String)
  | update (cart_item_id : String) (req : UpdateCartItemRequest)
  | remove (cart_item_id : String)

/-- Dispatch of a `CartOp` to the corresponding CartService method. -/
def applyCartOp (catalog : String → Option MenuItem)
    (user_id fresh_cart_id : String) (db : DB) : CartOp → Except (Err × DB) DB
  | .add req fresh_item_id =>
      add_to_cart catalog db user_id req fresh_cart_id fresh_item_id
  | .update cart_item_id req =>
      update_cart_item db user_id cart_item_id req fresh_cart_id
  | .remove cart_item_id =>
      remove_cart_item db user_id cart_item_id fresh_cart_id

/-- The cart-consistency invariant of the spec, for the cart with id
`cart_id`: its stored aggregates equal the recomputation from its lines. -/
def cartInv (db : DB) (cart_id : String) : Prop :=
  ∀ c ∈ db.shopping_carts, c.id = cart_id →
    c.subtotal = ((cartLines db cart_id).map (·.total_price)).sum ∧
    c.tax = calculate_tax c.subtotal ∧
    c.total = calculate_total c.subtotal c.tax ∧
    c.item_count = ((cartLines db cart_id).map (·.quantity)).sum

/-! ## OrderService -/

/-- Schema `CreateOrderRequest` (payment detail fields beyond the method elided). -/
structure CreateOrderRequest where
  payment_method : String
  special_instructions : Option String
  deriving DecidableEq, Repr

/-- Schema `UpdateOrderStatusRequest`. -/
structure UpdateOrderStatusRequest where
  status : OrderStatus
  message : Option String
  deriving DecidableEq, Repr

/-- Schema `CancelOrderRequest`: `cancellation_reason` is a required field. -/
structure CancelOrderRequest where
  cancellation_reason : String
  deriving DecidableEq, Repr

/-- Schema `OrderFeedbackRequest` (rating bound `1..5` enforced by the schema;
per-line `item_feedback` rows elided — they go to a separate append-only
collection no claim reads). -/
structure OrderFeedbackRequest where
  rating : Nat
  feedback : Option String
  deriving DecidableEq, Repr

/-- The fresh identifiers `create_order` draws (`uuid4`, order number,
`random.choice` index for the token letter); `gen_item_id i` is the id of the
`i`-th order line. -/
structure FreshIds where
  order_id : String
  order_number : String
  gen_item_id : Nat → String
  token_id : String
  payment_id : String
  timeline_id : String
  token_choice : Fin tokenLetters.length

/-- Method `OrderService._add_timeline_entry`. -/
def add_timeline_entry (db : DB) (entry_id order_id : String)
    (status : OrderStatus) (message : String) (updated_by : Option String) :
    DB :=
  { db with order_timeline := db.order_timeline ++
      [{ id := entry_id, order_id := order_id, status := status,
         message := message, updated_by := updated_by }] }

/-- Method `OrderService.create_order`. Follows the source order of operations:
load cart (raise `EmptyCart` if absent or `item_count == 0`), load lines
(raise if none), insert order with status PENDING, insert order lines,
count-then-build the token, insert payment (PENDING, amount = cart total),
append the initial timeline entry, then clear the cart (delete its lines and
zero its aggregates). Cache invalidation and the fire-and-forget queue
notification have no effect on the database and are elided. -/
def create_order (db : DB) (user_id : String) (req : CreateOrderRequest)
    (ids : FreshIds) (today : Nat) : Except (Err × DB) DB :=
  match db.shopping_carts.find? (fun c => c.user_id == user_id) with
  | none => .error (.EmptyCart, db)
  | some cart =>
    if cart.item_count == 0 then .error (.EmptyCart, db)
    else
      let cart_items := cartLines db cart.id
      if cart_items.isEmpty then .error (.EmptyCart, db)
      else
        let order : Order :=
          { id := ids.order_id, order_number := ids.order_number,
            user_id := user_id, status := .PENDING,
            subtotal := cart.subtotal, tax := cart.tax, total := cart.total,
            rating := none, feedback := none,
            cancellation_reason := none, cancelled_by := none }
        let db2 : DB := { db with orders := db.orders ++ [order] }
        let order_items := cart_items.enum.map (fun e =>
          ({ id := ids.gen_item_id e.1, order_id := ids.order_id,
             menu_item_id := e.2.menu_item_id,
             menu_item_name := e.2.menu_item_name,
             quantity := e.2.quantity, unit_price := e.2.unit_price,
             total_price := e.2.total_price } : OrderLine))
        let db3 : DB := { db2 with order_items := db2.order_items ++ order_items }
        let token_number := get_next_token_number db3 today
        let tk := generate_order_token token_number ids.token_choice
        let db4 : DB := { db3 with order_tokens := db3.order_tokens ++
          [{ id := ids.token_id, order_id := ids.order_id, token := tk.1,
             token_number := token_number, token_letter := tk.2,
             generated_day := today }] }
        let db5 : DB := { db4 with payments := db4.payments ++
          [{ id := ids.payment_id, order_id := ids.order_id,
             method := req.payment_method, status := .PENDING,
             amount := cart.total }] }
        let db6 : DB := add_timeline_entry db5 ids.timeline_id ids.order_id
          .PENDING ("Order created") (some user_id)
        let db7 : DB := { db6 with
          cart_items := db6.cart_items.filter (fun i => !(i.cart_id == cart.id)) }
        let db8 : DB := { db7 with
          shopping_carts := db7.shopping_carts.map (fun c =>
            if c.id == cart.id then
              { c with subtotal := 0, tax := 0, total := 0, item_count := 0 }
            else c) }
        .ok db8

/-- The terminal-status test of `cancel_order`:
`order["status"] in [COMPLETED, CANCELLED, REFUNDED]`. -/
def isTerminal (s : OrderStatus) : Bool :=
  s == .COMPLETED || s == .CANCELLED || s == .REFUNDED

/-- Method `OrderService.update_order_status`. The only validation is the staff
gate: a non-staff caller may only request CANCELLED. The requested status is
then written unconditionally and a timeline entry appended. (Preparation/
ready/completion timestamp bookkeeping is elided with the timestamps.) -/
def update_order_status (db : DB) (order_id : String)
    (req : UpdateOrderStatusRequest) (updated_by : String) (is_staff : Bool)
    (timeline_id : String) : Except (Err × DB) DB :=
  match db.orders.find? (fun o => o.id == order_id) with
  | none => .error (.NotFound, db)
  | some _ =>
    if !is_staff && !(req.status == OrderStatus.CANCELLED) then
      .error (.Forbidden, db)
    else
      let db2 : DB := { db with orders := db.orders.map (fun o =>
        if o.id == order_id then { o with status := req.status } else o) }
      .ok (add_timeline_entry db2 timeline_id order_id req.status
        (req.message.getD ("Order status changed")) (some updated_by))

/-- Method `OrderService.cancel_order`: owner-scoped lookup, terminal-state guard,
then set the order CANCELLED with the reason, force the payment CANCELLED,
and append a timeline entry. -/
def cancel_order (db : DB) (order_id user_id : String)
    (req : CancelOrderRequest) (timeline_id : String) : Except (Err × DB) DB :=
  match db.orders.find? (fun o => o.id == order_id && o.user_id == user_id) with
  | none => .error (.NotFound, db)
  | some order =>
    if isTerminal order.status then .error (.InvalidTransition, db)
    else
      let db2 : DB := { db with orders := db.orders.map (fun o =>
        if o.id == order_id then
          { o with status := .CANCELLED,
                   cancellation_reason := some req.cancellation_reason,
                   cancelled_by := some user_id }
        else o) }
      let db3 : DB := { db2 with payments := db2.payments.map (fun p =>
        if p.order_id == order_id then { p with status := .CANCELLED } else p) }
      .ok (add_timeline_entry db3 timeline_id order_id .CANCELLED
        ("Order cancelled: " ++ req.cancellation_reason) (some user_id))

/-- Method `OrderService.submit_feedback`: owner-scoped lookup, COMPLETED-only
guard, then overwrite the order's rating and feedback. -/
def submit_feedback (db : DB) (order_id user_id : String)
    (req : OrderFeedbackRequest) : Except (Err × DB) DB :=
  match db.orders.find? (fun o => o.id == order_id && o.user_id == user_id) with
  | none => .error (.NotFound, db)
  | some order =>
    if !(order.status == OrderStatus.COMPLETED) then
      .error (.InvalidState, db)
    else
      .ok { db with orders := db.orders.map (fun o =>
        if o.id == order_id then
          { o with rating := some req.rating, feedback := req.feedback }
        else o) }

/-! ## Redis cache and OrderService.get_order -/

/-- The Redis cache, restricted to the `order:{id}` entries `get_order`
reads and writes: an association list from key to cached order document. -/
def Cache := List (String × Order)

/-- Function `cache_get`. -/
def cache_get (cache : Cache) (key : String) : Option Order :=
  (List.find? (fun kv => kv.1 == key) cache).map (·.2)

/-- Function `cache_set` (`setex` overwrites, so the new entry shadows any old one). -/
def cache_set (cache : Cache) (key : String) (o : Order) : Cache :=
  (key, o) :: cache

/-- Method `OrderService.get_order`, restricted to the order-document lookup (the
hydration of items/token/payment/timeline reads other collections and is not
owner-filtered either). On a cache hit the cached document is returned with
NO owner check; only the cache-miss database query filters by `user_id` when
one is supplied. A miss populates the cache. -/
def get_order (db : DB) (cache : Cache) (order_id : String)
    (user_id : Option String) : Except Err (Order × Cache) :=
  let key := "order:" ++ order_id
  match cache_get cache key with
  | some order => .ok (order, cache)
  | none =>
    match db.orders.find? (fun o => o.id == order_id &&
        (match user_id with | some u => o.user_id == u | none => true)) with
    | none => .error .NotFound
    | some order => .ok (order, cache_set cache key order)

/-! ## The token-allocation race (spec section 4.3 / section 5) -/

/-- The token row one order-creation call inserts once it has computed its
token number `n`. -/
def mkToken (tid oid : String) (n : Nat) (c : Fin tokenLetters.length)
    (today : Nat) : OrderToken :=
  { id := tid, order_id := oid, token := (generate_order_token n c).1,
    token_number := n, token_letter := (generate_order_token n c).2,
    generated_day := today }

/-- The interleaving section 5 permits of two concurrent `create_order`
calls: `count_documents` and `insert_one` are separate awaited operations
with no lock or transaction between them, so both calls may run
`_get_next_token_number` against the same snapshot `db` before either
`insert_one` lands. Both inserts then commit. -/
def raceTwoAllocations (db : DB) (today : Nat) (tid1 oid1 tid2 oid2 : String)
    (c1 c2 : Fin tokenLetters.length) : DB :=
  let n1 := get_next_token_number db today
  let n2 := get_next_token_number db today
  { db with order_tokens := db.order_tokens ++
      [mkToken tid1 oid1 n1 c1 today, mkToken tid2 oid2 n2 c2 today] }

/-! ## Helper lemmas -/

/-- Filtering with `p` after keeping only the elements failing `p` leaves
nothing (clearing a cart's lines leaves it no lines). -/
theorem filter_not_filter {α} (p : α → Bool) (l : List α) :
    (l.filter (fun a => !(p a))).filter p = [] := by
  induction l with
  | nil => rfl
  | cons a l ih =>
    by_cases h : p a <;> simp [List.filter_cons, h, ih]

/-- Lemma: `find?` commutes with a map that does not change the predicate's verdict. -/
theorem find?_map_invariant {α} (g : α → α) (p : α → Bool)
    (hg : ∀ a, p (g a) = p a) (l : List α) :
    (l.map g).find? p = (l.find? p).map g := by
  induction l with
  | nil => rfl
  | cons a l ih =>
    by_cases h : p a
    · simp [List.find?_cons, hg, h]
    · simp only [List.map_cons, List.find?_cons, hg a, h]
      simpa [h] using ih

/-- Lemma: `recalculate_cart` does not touch the cart lines. -/
theorem recalculate_cart_items (db : DB) (cid : String) :
    (recalculate_cart db cid).cart_items = db.cart_items := rfl

/-- Lemma: `recalculate_cart` establishes the cart-consistency invariant for the
cart it recomputes, whatever the prior state. -/
theorem recalc_establishes_inv (db : DB) (cid : String) :
    cartInv (recalculate_cart db cid) cid := by
  intro c hc _hid
  simp only [recalculate_cart, List.mem_map] at hc
  obtain ⟨c0, _hc0, hcc⟩ := hc
  by_cases h : c0.id = cid
  · simp only [h, beq_self_eq_true, if_true] at hcc
    subst hcc
    exact ⟨rfl, rfl, rfl, rfl⟩
  · simp only [beq_eq_false_iff_ne.mpr h, Bool.false_eq_true, if_false] at hcc
    subst hcc
    exact absurd _hid h

/-- The cart `get_or_create_cart` returns is in the database it returns. -/
theorem get_or_create_cart_mem (db : DB) (u f : String) :
    (get_or_create_cart db u f).1 ∈ (get_or_create_cart db u f).2.shopping_carts := by
  unfold get_or_create_cart
  split
  · exact List.mem_of_find?_eq_some ‹_›
  · simp

/-- A cart present before `recalculate_cart` is still present (same id)
afterwards. -/
theorem recalc_preserves_cart (db : DB) (cid : String) (c : Cart)
    (hc : c ∈ db.shopping_carts) :
    ∃ c' ∈ (recalculate_cart db cid).shopping_carts, c'.id = c.id := by
  refine ⟨_, List.mem_map_of_mem _ hc, ?_⟩
  by_cases h : c.id = cid <;> simp [h]

/-- Every successful cart mutation ends by recalculating the operated cart:
the result is `recalculate_cart` of some intermediate state that still
contains that cart. -/
theorem applyCartOp_ok (catalog : String → Option MenuItem) (u f : String)
    (db : DB) (op : CartOp) (db' : DB)
    (h : applyCartOp catalog u f db op = .ok db') :
    ∃ db0 : DB, db' = recalculate_cart db0 (get_or_create_cart db u f).1.id ∧
      (get_or_create_cart db u f).1 ∈ db0.shopping_carts := by
  have hmem := get_or_create_cart_mem db u f
  cases op with
  | add req fid =>
    simp only [applyCartOp, add_to_cart] at h
    split at h
    · exact absurd h (by simp)
    · split at h
      · split at h
        · exact absurd h (by simp)
        · exact ⟨_, (Except.ok.inj h).symm, hmem⟩
      · exact ⟨_, (Except.ok.inj h).symm, hmem⟩
  | update iid req =>
    simp only [applyCartOp, update_cart_item] at h
    split at h
    · exact absurd h (by simp)
    · split at h
      · split at h
        · exact absurd h (by simp)
        · exact ⟨_, (Except.ok.inj h).symm, hmem⟩
      · exact ⟨_, (Except.ok.inj h).symm, hmem⟩
  | remove iid =>
    simp only [applyCartOp, remove_cart_item] at h
    split at h
    · exact absurd h (by simp)
    · exact ⟨_, (Except.ok.inj h).symm, hmem⟩

/-- Recomputing an already-recomputed cart changes nothing. -/
theorem recalc_idem (db : DB) (cid : String) :
    recalculate_cart (recalculate_cart db cid) cid = recalculate_cart db cid := by
  unfold recalculate_cart cartLines
  simp only [List.map_map]
  congr 1
  apply List.map_congr_left
  intro c _
  by_cases h : c.id = cid <;> simp [Function.comp, h]

/-- Lemma: `filter` commutes with a map that does not change the predicate's
verdict. -/
theorem filter_map_invariant {α} (g : α → α) (p : α → Bool)
    (hg : ∀ a, p (g a) = p a) (l : List α) :
    (l.map g).filter p = (l.filter p).map g := by
  induction l with
  | nil => rfl
  | cons a l ih => by_cases h : p a <;> simp [List.filter_cons, hg, h, ih]

/-- A concrete catalog for witnesses: one menu item `m1` priced 100. -/
def catalog0 : String → Option MenuItem :=
  fun i => if i = "m1" then some ⟨"Burger", 100⟩ else none

/-! ## Claim theorems -/

/-- C5: after every successful add-line/update-line/remove-line cart
operation, the operated cart's stored aggregates satisfy the consistency
equations — subtotal is the sum of its lines' `total_price`, tax is
`round2(subtotal × tax_rate / 100)`, total is `round2(subtotal + tax)`, and
`item_count` is the sum of its lines' quantities — and such a cart record
exists; moreover the `recalculate_cart` recomputation establishing this is
idempotent. Sequences of operations are covered because the database `db`
is arbitrary, so the invariant holds after each step of any sequence. -/
theorem cart_totals_invariant :
    (∀ (catalog : String → Option MenuItem) (u f : String) (db : DB)
       (op : CartOp) (db' : DB),
       applyCartOp catalog u f db op = .ok db' →
       cartInv db' (get_or_create_cart db u f).1.id ∧
       ∃ c ∈ db'.shopping_carts, c.id = (get_or_create_cart db u f).1.id) ∧
    (∀ (db : DB) (cid : String),
       recalculate_cart (recalculate_cart db cid) cid = recalculate_cart db cid) := by
  constructor
  · intro catalog u f db op db' h
    obtain ⟨db0, rfl, hmem⟩ := applyCartOp_ok catalog u f db op db' h
    exact ⟨recalc_establishes_inv _ _, recalc_preserves_cart db0 _ _ hmem⟩
  · exact recalc_idem

/-- C5 witness: adding item `m1` (price 100, quantity 2) to the empty
database succeeds and the resulting cart satisfies the invariant. -/
theorem cart_totals_invariant_witness :
    ∃ db' : DB,
      applyCartOp catalog0 ("u1") ("c1") emptyDB (.add ⟨"m1", 2⟩ "l1") = .ok db' ∧
      cartInv db' (get_or_create_cart emptyDB ("u1") ("c1")).1.id := by
  refine ⟨_, rfl, ?_⟩
  exact (cart_totals_invariant.1 catalog0 ("u1") ("c1") emptyDB
    (.add ⟨"m1", 2⟩ "l1") _ rfl).1

/-- C6: adding a menu item that already has a line in the cart merges into
that single existing line with the summed quantity and adds no line; if the
merged quantity exceeds the cap of 50 the call fails with `LimitExceeded`
and returns the database unchanged. -/
theorem add_merges_or_rejects (catalog : String → Option MenuItem)
    (db : DB) (u f fi m : String) (q : Nat) (cart : Cart) (l : CartLine)
    (item : MenuItem)
    (hc : db.shopping_carts.find? (fun c => c.user_id == u) = some cart)
    (hcat : catalog m = some item)
    (hfind : db.cart_items.find?
      (fun i => i.cart_id == cart.id && i.menu_item_id == m) = some l)
    (huniq : db.cart_items.filter
      (fun i => i.cart_id == cart.id && i.menu_item_id == m) = [l]) :
    (l.quantity + q ≤ MAX_QUANTITY_PER_ITEM →
      ∃ db', add_to_cart catalog db u ⟨m, q⟩ f fi = .ok db' ∧
        db'.cart_items.filter
          (fun i => i.cart_id == cart.id && i.menu_item_id == m) =
          [{ l with quantity := l.quantity + q,
                    total_price := item.price * ((l.quantity + q : Nat) : ℚ) }] ∧
        db'.cart_items.length = db.cart_items.length) ∧
    (MAX_QUANTITY_PER_ITEM < l.quantity + q →
      add_to_cart catalog db u ⟨m, q⟩ f fi = .error (.LimitExceeded, db)) := by
  have hgoc : get_or_create_cart db u f = (cart, db) := by
    unfold get_or_create_cart; rw [hc]
  constructor
  · intro hle
    have hnot : ¬ MAX_QUANTITY_PER_ITEM < l.quantity + q := not_lt.mpr hle
    refine ⟨recalculate_cart { db with cart_items := db.cart_items.map (fun i =>
        if i.id == l.id then
          { i with quantity := l.quantity + q,
                   total_price := item.price * ((l.quantity + q : Nat) : ℚ) }
        else i) } cart.id, ?_, ?_, ?_⟩
    · simp only [add_to_cart, hgoc, hcat, hfind]
      rw [if_neg hnot]
    · show (db.cart_items.map _).filter _ = _
      rw [filter_map_invariant _ _ ?_ db.cart_items, huniq]
      · simp
      · intro a
        by_cases h : a.id == l.id <;> simp [h]
    · exact db.cart_items.length_map _
  · intro hlt
    simp only [add_to_cart, hgoc, hcat, hfind]
    rw [if_pos hlt]

/-- C6 witness: with one existing line of quantity 49 for `m1`, adding 1
more merges to quantity 50 and succeeds; adding 2 more exceeds the cap and
is rejected with the database unchanged. -/
theorem add_merges_or_rejects_witness :
    (∃ db', add_to_cart catalog0
        ({ emptyDB with
           shopping_carts := [⟨"c1", "u1", 4900, 245, 5, 5145, 49⟩],
           cart_items := [⟨"l1", "c1", "m1", "Burger", 49, 100, 4900⟩] })
        "u1" ⟨"m1", 1⟩ "cf" "li" = .ok db' ∧
      db'.cart_items.filter
        (fun i => i.cart_id == "c1" && i.menu_item_id == "m1") =
        [⟨"l1", "c1", "m1", "Burger", 50, 100, 5000⟩] ∧
      db'.cart_items.length = 1) ∧
    add_to_cart catalog0
        ({ emptyDB with
           shopping_carts := [⟨"c1", "u1", 4900, 245, 5, 5145, 49⟩],
           cart_items := [⟨"l1", "c1", "m1", "Burger", 49, 100, 4900⟩] })
        "u1" ⟨"m1", 2⟩ "cf" "li" = .error (.LimitExceeded,
          { emptyDB with
            shopping_carts := [⟨"c1", "u1", 4900, 245, 5, 5145, 49⟩],
            cart_items := [⟨"l1", "c1", "m1", "Burger", 49, 100, 4900⟩] }) := by
  constructor
  · obtain ⟨db', h1, h2, h3⟩ :=
      (add_merges_or_rejects catalog0
        ({ emptyDB with
           shopping_carts := [⟨"c1", "u1", 4900, 245, 5, 5145, 49⟩],
           cart_items := [⟨"l1", "c1", "m1", "Burger", 49, 100, 4900⟩] })
        "u1" "cf" "li" "m1" 1 ⟨"c1", "u1", 4900, 245, 5, 5145, 49⟩
        ⟨"l1", "c1", "m1", "Burger", 49, 100, 4900⟩ ⟨"Burger", 100⟩
        rfl rfl rfl rfl).1 (by decide)
    refine ⟨db', h1, ?_, h3⟩
    rw [h2]; norm_num
  · exact (add_merges_or_rejects catalog0
        ({ emptyDB with
           shopping_carts := [⟨"c1", "u1", 4900, 245, 5, 5145, 49⟩],
           cart_items := [⟨"l1", "c1", "m1", "Burger", 49, 100, 4900⟩] })
        "u1" "cf" "li" "m1" 2 ⟨"c1", "u1", 4900, 245, 5, 5145, 49⟩
        ⟨"l1", "c1", "m1", "Burger", 49, 100, 4900⟩ ⟨"Burger", 100⟩
        rfl rfl rfl rfl).2 (by decide)

/-- Appending one matching element to a list with no matching element gives
exactly one match. -/
theorem filter_append_singleton_length {α} (p : α → Bool) (l : List α) (a : α)
    (hl : ∀ x ∈ l, ¬ p x) (ha : p a) :
    ((l ++ [a]).filter p).length = 1 := by
  rw [List.filter_append, List.filter_eq_nil_iff.mpr hl]
  simp [ha]

/-- C7: creating an order from a cart whose `item_count` is 0, or which has
no lines, fails with `EmptyCart` and returns the database unchanged — the
cart is untouched and no order, order line, token, payment or timeline entry
is created. -/
theorem create_order_empty_cart (db : DB) (u : String)
    (req : CreateOrderRequest) (ids : FreshIds) (today : Nat) (cart : Cart)
    (hc : db.shopping_carts.find? (fun c => c.user_id == u) = some cart)
    (h : cart.item_count = 0 ∨ cartLines db cart.id = []) :
    create_order db u req ids today = .error (.EmptyCart, db) := by
  by_cases h0 : cart.item_count = 0
  · simp [create_order, hc, h0]
  · rcases h with h | h
    · exact absurd h h0
    · simp [create_order, hc, h0, h]

/-- C7 witness: a cart with `item_count = 0` makes `create_order` fail with
`EmptyCart`, database unchanged. -/
theorem create_order_empty_cart_witness :
    create_order
      ({ emptyDB with shopping_carts := [⟨"c1", "u1", 0, 0, 5, 0, 0⟩] }) "u1"
      ⟨"CASH", none⟩
      ⟨"o1", "ORD1", fun n => "oi" ++ toString n, "t1", "p1", "tl1", ⟨0, by decide⟩⟩
      0 =
    .error (.EmptyCart,
      { emptyDB with shopping_carts := [⟨"c1", "u1", 0, 0, 5, 0, 0⟩] }) :=
  create_order_empty_cart _ ("u1") _ _ 0 ⟨"c1", "u1", 0, 0, 5, 0, 0⟩ rfl
    (Or.inl rfl)

/-- C1: after a successful `create_order` for a user whose cart is non-empty
(and with the fresh order id not already referenced by any token, payment or
timeline row), the cart is zeroed with no remaining lines, the new order
exists with status PENDING, exactly one token and exactly one payment row
reference the order — the payment PENDING with amount equal to the cart's
total — and exactly one timeline entry references the order. -/
theorem create_order_postconditions (db : DB) (u : String)
    (req : CreateOrderRequest) (ids : FreshIds) (today : Nat) (cart : Cart)
    (hc : db.shopping_carts.find? (fun c => c.user_id == u) = some cart)
    (hcount : cart.item_count ≠ 0)
    (hlines : cartLines db cart.id ≠ [])
    (htok : ∀ t ∈ db.order_tokens, t.order_id ≠ ids.order_id)
    (hpay : ∀ p ∈ db.payments, p.order_id ≠ ids.order_id)
    (htl : ∀ e ∈ db.order_timeline, e.order_id ≠ ids.order_id) :
    ∃ db', create_order db u req ids today = .ok db' ∧
      (∀ c ∈ db'.shopping_carts, c.id = cart.id →
        c.subtotal = 0 ∧ c.tax = 0 ∧ c.total = 0 ∧ c.item_count = 0) ∧
      cartLines db' cart.id = [] ∧
      (∃ o ∈ db'.orders, o.id = ids.order_id ∧ o.user_id = u ∧
        o.status = .PENDING) ∧
      (db'.order_tokens.filter (fun t => t.order_id == ids.order_id)).length = 1 ∧
      (db'.payments.filter (fun p => p.order_id == ids.order_id)).length = 1 ∧
      (∀ p ∈ db'.payments, p.order_id = ids.order_id →
        p.status = .PENDING ∧ p.amount = cart.total) ∧
      (db'.order_timeline.filter
        (fun e => e.order_id == ids.order_id)).length = 1 := by
  have h1 : (cart.item_count == 0) = false := beq_eq_false_iff_ne.mpr hcount
  have h2 : (cartLines db cart.id).isEmpty = false := by
    simp [List.isEmpty_iff, hlines]
  simp only [create_order, hc, h1, h2, Bool.false_eq_true, if_false]
  refine ⟨_, rfl, ?_, ?_, ?_, ?_, ?_, ?_, ?_⟩
  · intro c hmem hid
    simp only [add_timeline_entry, List.mem_map] at hmem
    obtain ⟨c0, _, rfl⟩ := hmem
    by_cases h : c0.id = cart.id
    · simp [h]
    · simp only [beq_eq_false_iff_ne.mpr h, Bool.false_eq_true, if_false] at hid ⊢
      exact absurd hid h
  · exact filter_not_filter _ _
  · refine ⟨_, List.mem_append_right _ (List.mem_singleton.mpr rfl), rfl, rfl, rfl⟩
  · exact filter_append_singleton_length _ _ _
      (by intro x hx; simpa using htok x hx) (by simp)
  · exact filter_append_singleton_length _ _ _
      (by intro x hx; simpa using hpay x hx) (by simp)
  · intro p hp hid
    simp only [add_timeline_entry] at hp
    rcases List.mem_append.mp hp with h | h
    · exact absurd hid (hpay p h)
    · rw [List.mem_singleton.mp h]
      exact ⟨rfl, rfl⟩
  · exact filter_append_singleton_length _ _ _
      (by intro x hx; simpa using htl x hx) (by simp)

/-- C1 witness: a cart with one line, and no pre-existing rows for the fresh
order id, yields the full postcondition. -/
theorem create_order_postconditions_witness :
    ∃ db', create_order
      ({ emptyDB with
         shopping_carts := [⟨"c1", "u1", 100, 5, 5, 105, 1⟩],
         cart_items := [⟨"l1", "c1", "m1", "Burger", 1, 100, 100⟩] }) "u1"
      ⟨"CASH", none⟩
      ⟨"o1", "ORD1", fun n => "oi" ++ toString n, "t1", "p1", "tl1", ⟨0, by decide⟩⟩
      0 = .ok db' ∧
      (∀ c ∈ db'.shopping_carts, c.id = "c1" →
        c.subtotal = 0 ∧ c.tax = 0 ∧ c.total = 0 ∧ c.item_count = 0) ∧
      cartLines db' ("c1") = [] ∧
      (∃ o ∈ db'.orders, o.id = "o1" ∧ o.user_id = "u1" ∧
        o.status = .PENDING) ∧
      (db'.order_tokens.filter (fun t => t.order_id == "o1")).length = 1 ∧
      (db'.payments.filter (fun p => p.order_id == "o1")).length = 1 ∧
      (∀ p ∈ db'.payments, p.order_id = "o1" →
        p.status = .PENDING ∧ p.amount = 105) ∧
      (db'.order_timeline.filter (fun e => e.order_id == "o1")).length = 1 :=
  create_order_postconditions _ ("u1") _ _ 0 ⟨"c1", "u1", 100, 5, 5, 105, 1⟩
    rfl (by decide) (by decide) (by simp [emptyDB]) (by simp [emptyDB])
    (by simp [emptyDB])

/-- C4: within a successful `create_order`, the allocated token's sequence
number is the count of tokens already issued today plus one, its letter is
the chosen element of the configured alphabet — and that choice is
independent of the sequence number — and the token string is the letter
followed by the sequence number zero-padded to a minimum width of 3
digits. -/
theorem token_allocation_shape (db : DB) (u : String)
    (req : CreateOrderRequest) (ids : FreshIds) (today : Nat) (cart : Cart)
    (hc : db.shopping_carts.find? (fun c => c.user_id == u) = some cart)
    (hcount : cart.item_count ≠ 0)
    (hlines : cartLines db cart.id ≠ []) :
    (∃ db', create_order db u req ids today = .ok db' ∧
      ∃ t ∈ db'.order_tokens, t.order_id = ids.order_id ∧
        t.token_number = countTokensToday db today + 1 ∧
        t.token_letter = tokenLetters.get ids.token_choice ∧
        t.token = t.token_letter ++ zeroPad3 t.token_number) ∧
    (∀ n n' : Nat, (generate_order_token n ids.token_choice).2 =
      (generate_order_token n' ids.token_choice).2) := by
  have h1 : (cart.item_count == 0) = false := beq_eq_false_iff_ne.mpr hcount
  have h2 : (cartLines db cart.id).isEmpty = false := by
    simp [List.isEmpty_iff, hlines]
  constructor
  · simp only [create_order, hc, h1, h2, Bool.false_eq_true, if_false]
    refine ⟨_, rfl, _,
      List.mem_append_right _ (List.mem_singleton.mpr rfl), rfl, rfl, rfl, rfl⟩
  · intro n n'
    rfl

/-- C4 witness: the concrete one-line cart yields a token numbered 1 with
letter "A" and token string "A001". -/
theorem token_allocation_shape_witness :
    ∃ db', create_order
      ({ emptyDB with
         shopping_carts := [⟨"c1", "u1", 100, 5, 5, 105, 1⟩],
         cart_items := [⟨"l1", "c1", "m1", "Burger", 1, 100, 100⟩] }) "u1"
      ⟨"CASH", none⟩
      ⟨"o1", "ORD1", fun n => "oi" ++ toString n, "t1", "p1", "tl1", ⟨0, by decide⟩⟩
      0 = .ok db' ∧
      ∃ t ∈ db'.order_tokens, t.order_id = "o1" ∧
        t.token_number = countTokensToday
          ({ emptyDB with
             shopping_carts := [⟨"c1", "u1", 100, 5, 5, 105, 1⟩],
             cart_items := [⟨"l1", "c1", "m1", "Burger", 1, 100, 100⟩] }) 0 + 1 ∧
        t.token_letter = tokenLetters.get ⟨0, by decide⟩ ∧
        t.token = t.token_letter ++ zeroPad3 t.token_number :=
  (token_allocation_shape
    ({ emptyDB with
       shopping_carts := [⟨"c1", "u1", 100, 5, 5, 105, 1⟩],
       cart_items := [⟨"l1", "c1", "m1", "Burger", 1, 100, 100⟩] }) "u1"
    ⟨"CASH", none⟩
    ⟨"o1", "ORD1", fun n => "oi" ++ toString n, "t1", "p1", "tl1", ⟨0, by decide⟩⟩
    0 ⟨"c1", "u1", 100, 5, 5, 105, 1⟩ rfl (by decide) (by decide)).1

/-- A COMPLETED (terminal) order, for the C2 counterexample. -/
def completedOrder : Order :=
  ⟨"o1", "ORD1", "u1", .COMPLETED, 100, 5, 105, none, none, none, none⟩

/-- C2 counterexample: `update_order_status` on a COMPLETED (terminal) order,
called by a staff actor requesting PENDING, succeeds and changes the status —
the code validates nothing beyond the staff gate, so terminal states are not
immutable and transitions need not follow the chain. -/
theorem status_update_counterexample :
    completedOrder.status = .COMPLETED ∧
    ∃ db', update_order_status { emptyDB with orders := [completedOrder] }
        "o1" ⟨.PENDING, none⟩ "staff1" true ("tl1") = .ok db' ∧
      ∀ o ∈ db'.orders, o.status = .PENDING :=
  ⟨rfl, _, rfl, by decide⟩

/-- C2 amended: `update_order_status` enforces only the staff gate — a
non-staff caller may request only CANCELLED (anything else is rejected with
the database unchanged); once the gate passes, the requested status is
written unconditionally, from ANY current status (including terminal ones)
and to any status, with no chain validation. -/
theorem status_update_staff_gate (db : DB) (oid : String)
    (req : UpdateOrderStatusRequest) (ub : String) (staff : Bool)
    (tl : String) (order : Order)
    (hfind : db.orders.find? (fun o => o.id == oid) = some order) :
    (staff = false → req.status ≠ .CANCELLED →
      update_order_status db oid req ub staff tl = .error (.Forbidden, db)) ∧
    (staff = true ∨ req.status = .CANCELLED →
      ∃ db', update_order_status db oid req ub staff tl = .ok db' ∧
        ∀ o ∈ db'.orders, o.id = oid → o.status = req.status) := by
  constructor
  · intro hs hr
    simp [update_order_status, hfind, hs, hr]
  · intro h
    have hcond : (!staff && !(req.status == OrderStatus.CANCELLED)) = false := by
      rcases h with h | h <;> simp [h]
    simp only [update_order_status, hfind, hcond, Bool.false_eq_true, if_false]
    refine ⟨_, rfl, ?_⟩
    intro o hmem hid
    simp only [add_timeline_entry, List.mem_map] at hmem
    obtain ⟨o0, _, rfl⟩ := hmem
    by_cases h0 : o0.id = oid
    · simp [h0]
    · simp only [beq_eq_false_iff_ne.mpr h0, Bool.false_eq_true, if_false] at hid ⊢
      exact absurd hid h0

/-- C2 amended witness: a staff caller moves a PENDING order to CONFIRMED. -/
theorem status_update_staff_gate_witness :
    ∃ db', update_order_status
        ({ emptyDB with orders :=
          [⟨"o3", "ORD3", "u1", .PENDING, 100, 5, 105, none, none, none, none⟩] })
        "o3" ⟨.CONFIRMED, none⟩ "staff1" true ("tl1") = .ok db' ∧
      ∀ o ∈ db'.orders, o.id = "o3" → o.status = .CONFIRMED :=
  (status_update_staff_gate
    ({ emptyDB with orders :=
      [⟨"o3", "ORD3", "u1", .PENDING, 100, 5, 105, none, none, none, none⟩] })
    "o3" ⟨.CONFIRMED, none⟩ "staff1" true ("tl1")
    ⟨"o3", "ORD3", "u1", .PENDING, 100, 5, 105, none, none, none, none⟩
    rfl).2 (Or.inl rfl)

/-- An order row with the CART pseudo-status, for the C8 counterexample.
It is reachable: `UpdateOrderStatusRequest.status` admits every enum value
and `update_order_status` writes it unvalidated. -/
def cartStatusOrder : Order :=
  ⟨"o2", "ORD2", "u1", .CART, 0, 0, 0, none, none, none, none⟩

/-- C8 counterexample: an order whose status is CART is in none of the four
claimed-cancellable states PENDING/CONFIRMED/PREPARING/READY, yet
`cancel_order` succeeds on it — so cancellation does not succeed EXACTLY
from those four states. -/
theorem cancel_counterexample :
    (cartStatusOrder.status ≠ .PENDING ∧ cartStatusOrder.status ≠ .CONFIRMED ∧
     cartStatusOrder.status ≠ .PREPARING ∧ cartStatusOrder.status ≠ .READY) ∧
    ∃ db', cancel_order { emptyDB with orders := [cartStatusOrder] }
      "o2" "u1" ⟨"changed my mind"⟩ "tl1" = .ok db' ∧
      ∀ o ∈ db'.orders, o.status = .CANCELLED :=
  ⟨by decide, _, rfl, by decide⟩

/-- C8 amended: cancellation succeeds exactly when the order's status is not
terminal (not COMPLETED, CANCELLED or REFUNDED) — which besides PENDING,
CONFIRMED, PREPARING and READY also admits the CART pseudo-status; on a
terminal order it fails with `InvalidTransition` and returns the database
unchanged; on success the order becomes CANCELLED with the required
cancellation reason recorded and the linked payment is forced to status
CANCELLED. -/
theorem cancel_order_rules (db : DB) (oid u reason tl : String)
    (order : Order)
    (hfind : db.orders.find? (fun o => o.id == oid && o.user_id == u) =
      some order) :
    (isTerminal order.status = true →
      cancel_order db oid u ⟨reason⟩ tl = .error (.InvalidTransition, db)) ∧
    (isTerminal order.status = false →
      ∃ db', cancel_order db oid u ⟨reason⟩ tl = .ok db' ∧
        (∀ o ∈ db'.orders, o.id = oid →
          o.status = .CANCELLED ∧ o.cancellation_reason = some reason) ∧
        (∀ p ∈ db'.payments, p.order_id = oid → p.status = .CANCELLED)) := by
  constructor
  · intro ht
    simp [cancel_order, hfind, ht]
  · intro ht
    simp only [cancel_order, hfind, ht, Bool.false_eq_true, if_false]
    refine ⟨_, rfl, ?_, ?_⟩
    · intro o hmem hid
      simp only [add_timeline_entry, List.mem_map] at hmem
      obtain ⟨o0, _, rfl⟩ := hmem
      by_cases h0 : o0.id = oid
      · simp [h0]
      · simp only [beq_eq_false_iff_ne.mpr h0, Bool.false_eq_true,
          if_false] at hid ⊢
        exact absurd hid h0
    · intro p hmem hid
      simp only [add_timeline_entry, List.mem_map] at hmem
      obtain ⟨p0, _, rfl⟩ := hmem
      by_cases h0 : p0.order_id = oid
      · simp [h0]
      · simp only [beq_eq_false_iff_ne.mpr h0, Bool.false_eq_true,
          if_false] at hid ⊢
        exact absurd hid h0

/-- C8 amended witness: cancelling a PENDING order succeeds with the stated
effects, and cancelling a COMPLETED order fails with the database
unchanged. -/
theorem cancel_order_rules_witness :
    (∃ db', cancel_order
        ({ emptyDB with
           orders := [⟨"o4", "ORD4", "u1", .PENDING, 100, 5, 105,
             none, none, none, none⟩],
           payments := [⟨"p4", "o4", "CASH", .PENDING, 105⟩] })
        "o4" "u1" ⟨"too slow"⟩ "tl1" = .ok db' ∧
      (∀ o ∈ db'.orders, o.id = "o4" →
        o.status = .CANCELLED ∧ o.cancellation_reason = some ("too slow")) ∧
      (∀ p ∈ db'.payments, p.order_id = "o4" → p.status = .CANCELLED)) ∧
    cancel_order ({ emptyDB with orders := [completedOrder] }) "o1" "u1"
      ⟨"late"⟩ "tl1" = .error (.InvalidTransition,
        { emptyDB with orders := [completedOrder] }) :=
  ⟨(cancel_order_rules
      ({ emptyDB with
         orders := [⟨"o4", "ORD4", "u1", .PENDING, 100, 5, 105,
           none, none, none, none⟩],
         payments := [⟨"p4", "o4", "CASH", .PENDING, 105⟩] })
      "o4" "u1" "too slow" "tl1"
      ⟨"o4", "ORD4", "u1", .PENDING, 100, 5, 105, none, none, none, none⟩
      rfl).2 rfl,
   (cancel_order_rules ({ emptyDB with orders := [completedOrder] })
      "o1" "u1" "late" "tl1" completedOrder rfl).1 rfl⟩

/-- On a COMPLETED order, `submit_feedback` succeeds and its result is the
database with the order's rating and feedback overwritten. -/
theorem submit_feedback_ok (db : DB) (oid u : String) (order : Order)
    (hfind : db.orders.find? (fun o => o.id == oid && o.user_id == u) =
      some order)
    (hs : order.status = .COMPLETED) (req : OrderFeedbackRequest) :
    submit_feedback db oid u req = .ok { db with
      orders := db.orders.map (fun o =>
        if o.id == oid then
          { o with rating := some req.rating, feedback := req.feedback }
        else o) } := by
  simp [submit_feedback, hfind, hs]

/-- C9: feedback on an order that is not COMPLETED fails with `InvalidState`
and returns the database unchanged; on a COMPLETED order it succeeds, setting
the rating and feedback; a second submission overwrites the first — the
final rating and feedback are those of the second request. -/
theorem feedback_rules (db : DB) (oid u : String) (order : Order)
    (hfind : db.orders.find? (fun o => o.id == oid && o.user_id == u) =
      some order) :
    (order.status ≠ .COMPLETED →
      ∀ req : OrderFeedbackRequest,
        submit_feedback db oid u req = .error (.InvalidState, db)) ∧
    (order.status = .COMPLETED →
      ∀ req : OrderFeedbackRequest,
        ∃ db', submit_feedback db oid u req = .ok db' ∧
          ∀ o ∈ db'.orders, o.id = oid →
            o.rating = some req.rating ∧ o.feedback = req.feedback) ∧
    (order.status = .COMPLETED →
      ∀ r1 r2 : OrderFeedbackRequest,
        ∃ db1 db2, submit_feedback db oid u r1 = .ok db1 ∧
          submit_feedback db1 oid u r2 = .ok db2 ∧
          ∀ o ∈ db2.orders, o.id = oid →
            o.rating = some r2.rating ∧ o.feedback = r2.feedback) := by
  refine ⟨?_, ?_, ?_⟩
  · intro hs req
    simp [submit_feedback, hfind, hs]
  · intro hs req
    refine ⟨_, submit_feedback_ok db oid u order hfind hs req, ?_⟩
    intro o hmem hid
    simp only [List.mem_map] at hmem
    obtain ⟨o0, _, rfl⟩ := hmem
    by_cases h0 : o0.id = oid
    · simp [h0]
    · simp only [beq_eq_false_iff_ne.mpr h0, Bool.false_eq_true,
        if_false] at hid ⊢
      exact absurd hid h0
  · intro hs r1 r2
    have hg : ∀ o : Order,
        ((fun o => o.id == oid && o.user_id == u)
          (if o.id == oid then
            { o with rating := some r1.rating, feedback := r1.feedback }
          else o)) =
        ((fun o => o.id == oid && o.user_id == u) o) := by
      intro o
      by_cases h0 : o.id = oid <;> simp [h0]
    have h1 := submit_feedback_ok db oid u order hfind hs r1
    have hfind2 : ({ db with orders := db.orders.map (fun o =>
        if o.id == oid then
          { o with rating := some r1.rating, feedback := r1.feedback }
        else o) } : DB).orders.find?
        (fun o => o.id == oid && o.user_id == u) =
        some (if order.id == oid then
          { order with rating := some r1.rating, feedback := r1.feedback }
        else order) := by
      show ((db.orders.map _).find? _) = _
      rw [find?_map_invariant _ _ hg db.orders, hfind]
      rfl
    have hs2 : (if order.id == oid then
        { order with rating := some r1.rating, feedback := r1.feedback }
      else order).status = .COMPLETED := by
      by_cases h0 : order.id = oid <;> simp [h0, hs]
    have h2 := submit_feedback_ok _ oid u _ hfind2 hs2 r2
    refine ⟨_, _, h1, h2, ?_⟩
    intro o hmem hid
    simp only [List.map_map, List.mem_map] at hmem
    obtain ⟨o0, _, rfl⟩ := hmem
    by_cases h0 : o0.id = oid
    · simp [Function.comp, h0]
    · simp only [Function.comp_apply, beq_eq_false_iff_ne.mpr h0,
        Bool.false_eq_true, if_false] at hid ⊢
      exact absurd hid h0

/-- C9 witness: feedback on a PENDING order is rejected with the database
unchanged; on a COMPLETED order two successive submissions leave the second
rating and feedback. -/
theorem feedback_rules_witness :
    (submit_feedback
      ({ emptyDB with orders :=
        [⟨"o3", "ORD3", "u1", .PENDING, 100, 5, 105, none, none, none, none⟩] })
      "o3" "u1" ⟨4, some ("ok")⟩ = .error (.InvalidState,
        { emptyDB with orders :=
          [⟨"o3", "ORD3", "u1", .PENDING, 100, 5, 105, none, none, none, none⟩] })) ∧
    (∃ db1 db2, submit_feedback
        ({ emptyDB with orders := [completedOrder] }) "o1" "u1"
        ⟨2, some ("meh")⟩ = .ok db1 ∧
      submit_feedback db1 ("o1") ("u1") ⟨5, some ("great")⟩ = .ok db2 ∧
      ∀ o ∈ db2.orders, o.id = "o1" →
        o.rating = some 5 ∧ o.feedback = some ("great")) :=
  ⟨(feedback_rules
      ({ emptyDB with orders :=
        [⟨"o3", "ORD3", "u1", .PENDING, 100, 5, 105, none, none, none, none⟩] })
      "o3" "u1"
      ⟨"o3", "ORD3", "u1", .PENDING, 100, 5, 105, none, none, none, none⟩
      rfl).1 (by decide) ⟨4, some ("ok")⟩,
   (feedback_rules ({ emptyDB with orders := [completedOrder] }) "o1" "u1"
      completedOrder rfl).2.2 rfl ⟨2, some ("meh")⟩ ⟨5, some ("great")⟩⟩

/-- C10: the owner-scope filter of `get_order` lives only on the cache-miss
path. (a) On a cache hit the cached order is returned to ANY supplied
`user_id`, owner or not, with no check; (b) on a miss, a non-owner's lookup
fails with `NotFound`; (c) a public (no `user_id`) read of an uncached order
populates the cache, after which the same non-owner lookup of part (b)
succeeds — cached reads bypass the owner scope. -/
theorem get_order_cache_bypass :
    (∀ (db : DB) (cache : Cache) (oid u : String) (o : Order),
      cache_get cache ("order:" ++ oid) = some o →
      get_order db cache oid (some u) = .ok (o, cache)) ∧
    (∀ (db : DB) (cache : Cache) (oid u : String),
      cache_get cache ("order:" ++ oid) = none →
      (∀ o ∈ db.orders, o.id = oid → o.user_id ≠ u) →
      get_order db cache oid (some u) = .error .NotFound) ∧
    (∀ (db : DB) (cache : Cache) (oid u : String) (o : Order),
      cache_get cache ("order:" ++ oid) = none →
      db.orders.find? (fun o' => o'.id == oid) = some o →
      ∃ cache', get_order db cache oid none = .ok (o, cache') ∧
        get_order db cache' oid (some u) = .ok (o, cache')) := by
  refine ⟨?_, ?_, ?_⟩
  · intro db cache oid u o h
    simp [get_order, h]
  · intro db cache oid u hmiss hnotmine
    have hfind : db.orders.find?
        (fun o => o.id == oid && o.user_id == u) = none := by
      apply List.find?_eq_none.mpr
      intro o hmem
      simp only [Bool.and_eq_true, beq_iff_eq, not_and]
      intro hid
      exact hnotmine o hmem hid
    simp [get_order, hmiss, hfind]
  · intro db cache oid u o hmiss hfind
    have hpred : (fun o' : Order => o'.id == oid &&
        (match (none : Option String) with
         | some u => o'.user_id == u | none => true)) =
        (fun o' : Order => o'.id == oid) := by
      funext o'
      simp
    refine ⟨cache_set cache ("order:" ++ oid) o, ?_, ?_⟩
    · simp only [get_order, hmiss]
      rw [hpred, hfind]
    · simp [get_order, cache_get, cache_set]

/-- C10 witness: with an order owned by `u1` and an empty cache, a lookup by
`u2` fails; after one public read populates the cache, the same `u2` lookup
returns the full order. -/
theorem get_order_cache_bypass_witness :
    (get_order ({ emptyDB with orders := [completedOrder] }) [] "o1"
      (some ("u2")) = .error .NotFound) ∧
    ∃ cache', get_order ({ emptyDB with orders := [completedOrder] }) [] "o1"
        none = .ok (completedOrder, cache') ∧
      get_order ({ emptyDB with orders := [completedOrder] }) cache' ("o1")
        (some ("u2")) = .ok (completedOrder, cache') :=
  ⟨get_order_cache_bypass.2.1 ({ emptyDB with orders := [completedOrder] })
      [] "o1" "u2" rfl (by decide),
   get_order_cache_bypass.2.2 ({ emptyDB with orders := [completedOrder] })
      [] "o1" "u2" completedOrder rfl rfl⟩

/-- C3: the count-then-assign race of `_get_next_token_number`. Under the
request-parallel model (spec section 5) the `count_documents` and the later
`insert_one` are separate awaited operations with no lock or transaction, so
two concurrent `create_order` calls may both count against the same snapshot
before either insert lands. In that interleaving both calls compute the SAME
token number — in general, and concretely both get token number 1 on a day
with no tokens yet — violating the declared distinctness invariant. -/
theorem token_race_duplicate :
    (∀ (db : DB) (today : Nat) (t1 o1 t2 o2 : String)
       (c1 c2 : Fin tokenLetters.length),
      ∃ x1 ∈ (raceTwoAllocations db today t1 o1 t2 o2 c1 c2).order_tokens,
      ∃ x2 ∈ (raceTwoAllocations db today t1 o1 t2 o2 c1 c2).order_tokens,
        x1.id = t1 ∧ x2.id = t2 ∧ x1.token_number = x2.token_number) ∧
    (∃ x1 ∈ (raceTwoAllocations emptyDB 0 ("t1") ("o1") ("t2") ("o2")
        ⟨0, by decide⟩ ⟨1, by decide⟩).order_tokens,
     ∃ x2 ∈ (raceTwoAllocations emptyDB 0 ("t1") ("o1") ("t2") ("o2")
        ⟨0, by decide⟩ ⟨1, by decide⟩).order_tokens,
      x1.order_id = "o1" ∧ x2.order_id = "o2" ∧
      x1.token_number = 1 ∧ x2.token_number = 1 ∧ x1 ≠ x2) := by
  constructor
  · intro db today t1 o1 t2 o2 c1 c2
    refine ⟨mkToken t1 o1 (get_next_token_number db today) c1 today, ?_,
            mkToken t2 o2 (get_next_token_number db today) c2 today, ?_,
            rfl, rfl, rfl⟩
    · simp [raceTwoAllocations]
    · simp [raceTwoAllocations]
  · exact ⟨mkToken ("t1") ("o1") 1 ⟨0, by decide⟩ 0, by decide,
           mkToken ("t2") ("o2") 1 ⟨1, by decide⟩ 0, by decide,
           rfl, rfl, rfl, rfl, by decide⟩

end OrderSpec
